import Mathlib

/-!
Verification of `joy_tennis.py` (class `WebScraper`): a shallow embedding of
the calendar utilities, the identifier extraction/derivation pipeline, the
monthly reservation builder and the session orchestrator, together with
theorems settling the specification claims.

Python's stdlib collaborators (`datetime`, `calendar`, `str.split`, `int(...)`,
BeautifulSoup) are embedded by executable Lean functions implementing the same
(proleptic-Gregorian, base-10, ...) semantics on the inputs the program uses.
-/

/-! ## Calendar model (Python `datetime` / `calendar`) -/

/-- Gregorian leap-year rule, as used by Python's `calendar` module. -/
def isLeapYear (y : Nat) : Bool :=
  (y % 4 == 0 && y % 100 != 0) || y % 400 == 0

/-- Python's `calendar.monthrange(year, month)[1]`: number of days in the month. -/
def daysInMonth (y m : Nat) : Nat :=
  if m = 2 then (if isLeapYear y then 29 else 28)
  else if m = 4 ∨ m = 6 ∨ m = 9 ∨ m = 11 then 30
  else 31

/-- Days in all months of year `y` strictly before month `m`. -/
def daysBeforeMonth (y m : Nat) : Nat :=
  (List.range (m - 1)).foldl (fun acc i => acc + daysInMonth y (i + 1)) 0

/-- Days in all years strictly before year `y` (proleptic Gregorian). -/
def daysBeforeYear (y : Nat) : Nat :=
  365 * (y - 1) + (y - 1) / 4 - (y - 1) / 100 + (y - 1) / 400

/-- Proleptic-Gregorian ordinal of a date, with `0001-01-01` at ordinal 1
(Python's `date.toordinal`). -/
def dateOrdinal (y m d : Nat) : Nat :=
  daysBeforeYear y + daysBeforeMonth y m + d

/-- Python's `datetime.weekday()`: 0 = Monday .. 6 = Sunday.
`0001-01-01` (ordinal 1) is a Monday. -/
def pyWeekday (y m d : Nat) : Nat :=
  (dateOrdinal y m d - 1) % 7

/-- Left-pad a decimal string with zeros to the given width (`strftime`
zero padding). -/
def padZero (width : Nat) (s : String) : String :=
  if s.length < width then String.mk (List.replicate (width - s.length) '0') ++ s else s

/-- Format `strftime('%Y%m%d')`. -/
def fmtCompact (y m d : Nat) : String :=
  padZero 4 (toString y) ++ padZero 2 (toString m) ++ padZero 2 (toString d)

/-- Format `strftime('%Y-%m-%d')`. -/
def fmtDashed (y m d : Nat) : String :=
  padZero 4 (toString y) ++ "-" ++ padZero 2 (toString m) ++ "-" ++ padZero 2 (toString d)

/-- Day-of-month selected by `get_first_weekday_of_month`: the first day's
weekday is computed, `days_ahead = weekday - first_weekday` with `+ 7` when
negative, and the result is day `1 + days_ahead` (the `timedelta` addition
stays inside the month because `days_ahead ≤ 6`). -/
def first_weekday_day (y m weekday : Nat) : Nat :=
  let first_weekday := pyWeekday y m 1
  let days_ahead : Int := (weekday : Int) - (first_weekday : Int)
  let days_ahead := if days_ahead < 0 then days_ahead + 7 else days_ahead
  (1 + days_ahead).toNat

/-- Model of `WebScraper.get_first_weekday_of_month`: returns `'%Y-%m-%d'` of the first
occurrence of `weekday` in the month. -/
def get_first_weekday_of_month (y m weekday : Nat) : String :=
  fmtDashed y m (first_weekday_day y m weekday)

/-- Day-of-month selected by `get_last_weekday_of_month`:
`days_back = (last_day.weekday() - weekday) % 7` (Python `%` on ints, i.e.
`Int.emod`), subtracted from the month's last day. -/
def last_weekday_day (y m weekday : Nat) : Nat :=
  let last := daysInMonth y m
  let days_back : Int := ((pyWeekday y m last : Int) - (weekday : Int)) % 7
  ((last : Int) - days_back).toNat

/-- Model of `WebScraper.get_last_weekday_of_month`: returns `'%Y-%m-%d'` of the last
occurrence of `weekday` in the month. -/
def get_last_weekday_of_month (y m weekday : Nat) : String :=
  fmtDashed y m (last_weekday_day y m weekday)

/-! ## Sequence generator (`generate_sequential_values`) -/

/-- ASCII whitespace stripped by Python's `int(str)` conversion. -/
def isPySpace (c : Char) : Bool :=
  c = ' ' || c = '\t' || c = '\n' || c = '\r' || c = '\x0b' || c = '\x0c'

/-- After the first digit: digits, with single underscores allowed only
between digits (Python's base-10 integer literal grammar for `int(str)`). -/
def pyDigitsTail : List Char → Bool
  | [] => true
  | c :: rest =>
    if c = '_' then
      match rest with
      | [] => false
      | d :: r => d.isDigit && pyDigitsTail r
    else c.isDigit && pyDigitsTail rest

/-- A nonempty digit run (underscore separators allowed between digits). -/
def pyDigitsOk : List Char → Bool
  | [] => false
  | c :: rest => c.isDigit && pyDigitsTail rest

/-- Decimal value of a digit run, skipping underscore separators. -/
def pyDigitsVal (cs : List Char) : Nat :=
  (cs.filter (fun c => c ≠ '_')).foldl (fun acc c => acc * 10 + (c.toNat - '0'.toNat)) 0

/-- Python's `int(s)` for base 10: strip whitespace, optional sign, digit run;
`none` models the `ValueError`. -/
def pyInt (s : String) : Option Int :=
  let cs := ((s.data.dropWhile isPySpace).reverse.dropWhile isPySpace).reverse
  match cs with
  | '+' :: rest => if pyDigitsOk rest then some (pyDigitsVal rest) else none
  | '-' :: rest => if pyDigitsOk rest then some (-(pyDigitsVal rest : Int)) else none
  | _ => if pyDigitsOk cs then some (pyDigitsVal cs) else none

/-- Splitter for Python's `str.split('||')`, specialized to the program's
two-pipe separator: scan left to right, each non-overlapping `'||'` ends the
current field. -/
def splitPipes : List Char → List Char → List (List Char)
  | [], acc => [acc.reverse]
  | '|' :: '|' :: cs, acc => acc.reverse :: splitPipes cs []
  | c :: cs, acc => splitPipes cs (c :: acc)

/-- Python's `s.split('||')`. -/
def pySplitPipes (s : String) : List String :=
  (splitPipes s.data []).map String.mk

/-- Model of `WebScraper.generate_sequential_values(original_value, count)`: empty-string
guard (Python falsiness, also covering `None`), `split('||')` arity guard,
`int(parts[0])` guard, then the list `[base, base+1, ..., base+count-1]`.
A Python `count ≤ 0` makes `range(count)` empty, matching `count = 0` here. -/
def generate_sequential_values (original_value : String) (count : Nat) : List Int :=
  if original_value = "" then []
  else if (pySplitPipes original_value).length < 3 then []
  else
    match pySplitPipes original_value with
    | [] => []
    | p :: _ =>
      match pyInt p with
      | none => []
      | some base_number => (List.range count).map (fun (i : Nat) => base_number + (i : Int))

/-! ## Reservation builder (`generate_monthly_reservations`) -/

/-- Reservation strings appended for one calendar day by the body of the
`while current_date <= last_day_of_month` loop: four Sunday slots guarded by
`len(sunday_values) >= 4`, two Wednesday slots guarded by
`len(wednesday_values) >= 2`, two Saturday slots guarded by
`len(saturday_values) >= 2`; other weekdays contribute nothing. -/
def dayReservations (y m day : Nat) (sunday_values wednesday_values saturday_values : List Int) :
    List String :=
  if pyWeekday y m day = 6 then
    if 4 ≤ sunday_values.length then
      [toString (sunday_values.getD 0 0) ++ "||4||" ++ fmtCompact y m day,
       toString (sunday_values.getD 1 0) ++ "||4||" ++ fmtCompact y m day,
       toString (sunday_values.getD 2 0) ++ "||4||" ++ fmtCompact y m day,
       toString (sunday_values.getD 3 0) ++ "||4||" ++ fmtCompact y m day]
    else []
  else if pyWeekday y m day = 2 then
    if 2 ≤ wednesday_values.length then
      [toString (wednesday_values.getD 0 0) ++ "||6||" ++ fmtCompact y m day,
       toString (wednesday_values.getD 1 0) ++ "||6||" ++ fmtCompact y m day]
    else []
  else if pyWeekday y m day = 5 then
    if 2 ≤ saturday_values.length then
      [toString (saturday_values.getD 0 0) ++ "||5||" ++ fmtCompact y m day,
       toString (saturday_values.getD 1 0) ++ "||5||" ++ fmtCompact y m day]
    else []
  else []

/-- The day loop of `generate_monthly_reservations`, iterating `remaining`
days starting at day-of-month `day` and concatenating each day's appends. -/
def genMonthAux (y m : Nat) (sv wv stv : List Int) : Nat → Nat → List String
  | 0, _ => []
  | remaining + 1, day =>
    dayReservations y m day sv wv stv ++ genMonthAux y m sv wv stv remaining (day + 1)

/-- Model of `WebScraper.generate_monthly_reservations`: the loop runs `current_date`
from day 1 to the month's last day inclusive. -/
def generate_monthly_reservations (year month : Nat)
    (sunday_values wednesday_values saturday_values : List Int) : List String :=
  genMonthAux year month sunday_values wednesday_values saturday_values
    (daysInMonth year month) 1

/-- Number of days of the month falling on Python-weekday `w`. -/
def countWeekday (y m w : Nat) : Nat :=
  (List.range' 1 (daysInMonth y m)).countP (fun d => pyWeekday y m d == w)

/-! ## HTML model and identifier extraction (`get_data_from_ajax`) -/

/-- An `<input>` element as seen by the extractor: its `type` attribute and
optional `value` attribute (BeautifulSoup `input.get('value')`). -/
structure HtmlInput where
  typeAttr : String
  valueAttr : Option String
deriving DecidableEq, Repr

/-- A `<td>` cell: the `input` descendants in document order
(`td.find('input', type='checkbox')` takes the first checkbox among them). -/
structure HtmlCell where
  inputs : List HtmlInput
deriving DecidableEq, Repr

/-- A `<tr>` row: its `<td>` cells in document order (`tr.find_all('td')`). -/
structure HtmlRow where
  cells : List HtmlCell
deriving DecidableEq, Repr

/-- A `<table>`: its class list and its `<tr>` rows in document order
(`table.find_all('tr')`). -/
structure HtmlTable where
  classes : List String
  rows : List HtmlRow
deriving DecidableEq, Repr

/-- A parsed document, as the list of its `<table>` elements in document
order (`soup.find_all('table')`; `soup.find('table', ...)` returns the first
match). -/
abbrev HtmlDoc := List HtmlTable

/-- BeautifulSoup `class_='stbl_l1a con_wid'`: the full class string matches
exactly. -/
def isSpecificTable (t : HtmlTable) : Bool :=
  t.classes == ["stbl_l1a", "con_wid"]

/-- BeautifulSoup `class_='stbl_l1a'`: the class list contains `stbl_l1a`. -/
def isLooseTable (t : HtmlTable) : Bool :=
  t.classes.contains "stbl_l1a"

/-- The table-selection cascade of `get_data_from_ajax`: the exact class
signature, then the looser class, then the first table of the document. -/
def findTable (doc : HtmlDoc) : Option HtmlTable :=
  match doc.find? isSpecificTable with
  | some t => some t
  | none =>
    match doc.find? isLooseTable with
    | some t => some t
    | none => doc.head?

/-- The extraction part of `get_data_from_ajax` (after the HTTP-status check):
select a table via the cascade, bounds-check the 1-based `tr_index` and
`td_index`, find the first checkbox input of the selected cell and return its
`value` attribute when present and nonempty (`if value:`). -/
def extract_checkbox_value (doc : HtmlDoc) (tr_index td_index : Nat) : Option String :=
  match findTable doc with
  | none => none
  | some table =>
    let trs := table.rows
    if trs.length < tr_index then none
    else
      match trs[tr_index - 1]? with
      | none => none
      | some tr =>
        let tds := tr.cells
        if tds.length < td_index then none
        else
          match tds[td_index - 1]? with
          | none => none
          | some td =>
            match td.inputs.find? (fun inp => inp.typeAttr == "checkbox") with
            | none => none
            | some input_tag =>
              match input_tag.valueAttr with
              | none => none
              | some v => if v = "" then none else some v

/-! ## Reservation submission (`make_reservation`) -/

/-- Holds when `pat` is an initial segment of `cs`. -/
def charsStartWith : List Char → List Char → Bool
  | _, [] => true
  | [], _ :: _ => false
  | c :: cs, d :: ds => c = d && charsStartWith cs ds

/-- Holds when `pat` occurs as a contiguous run inside `cs`. -/
def charsContain : List Char → List Char → Bool
  | [], pat => pat.isEmpty
  | c :: cs, pat => charsStartWith (c :: cs) pat || charsContain cs pat

/-- Holds when `sub` occurs as a substring of `s` (Python's `in` on strings). -/
def strContains (s sub : String) : Bool :=
  charsContain s.data sub.data

/-- The spec's tri-state outcome of one submission attempt. -/
inductive ReservationOutcome
  | Accepted
  | AcceptedWithExclusion
  | Failed
deriving DecidableEq, Repr

/-- The success phrase checked by `make_reservation`. -/
def cartPhrase : String := "장바구니에 담았습니다."

/-- The exclusion phrase checked by `make_reservation`. -/
def exclusionPhrase : String := "항목 제외하고"

/-- Classification of one reservation response (`none` = transport error,
`some (status, body)` otherwise), following the branch structure of
`make_reservation`: the three distinguishable outcome paths. -/
def classify_reservation (resp : Option (Nat × String)) : ReservationOutcome :=
  match resp with
  | none => .Failed
  | some (status, body) =>
    if status = 200 then
      if strContains body cartPhrase then
        if strContains body exclusionPhrase then .AcceptedWithExclusion
        else .Accepted
      else .Failed
    else .Failed

/-- The boolean returned by `make_reservation` for one response: `True` on
both success paths (full and with-exclusion), `False` on the unrecognized-body,
non-200 and exception paths. -/
def reservation_success (resp : Option (Nat × String)) : Bool :=
  match resp with
  | none => false
  | some (status, body) =>
    if status = 200 then
      if strContains body cartPhrase then
        if strContains body exclusionPhrase then true
        else true
      else false
    else false

/-! ## Session orchestrator (`run_scraper` and the entry point) -/

/-- Externally observable actions of a run: the login POST, one discovery
POST per weekday group (tagged by its `week_chk` code), one reservation POST
per token, and one Telegram notification per `send_telegram_message` call. -/
inductive Event
  | loginAttempt
  | ajaxCall (weekCode : Nat)
  | reserveCall (token : String)
  | notify
deriving DecidableEq, Repr

/-- The external world of one run: the login response (`none` = exception;
otherwise HTTP status and the `PHPSESSID` cookie afterwards), the discovery
response per request date and `week_chk` code (`none` = exception; otherwise
HTTP status and parsed body), and the reservation response per submitted
token (`none` = exception; otherwise HTTP status and body text). -/
structure Env where
  loginResp : Option (Nat × Option String)
  ajaxResp : String → Nat → Option (Nat × HtmlDoc)
  reserveResp : String → Option (Nat × String)

/-- Python truthiness of `Optional[str]`: `None` and `""` are falsy. -/
def truthy : Option String → Bool
  | none => false
  | some v => v ≠ ""

/-- Model of `WebScraper.login`: success means HTTP 200 and a truthy `PHPSESSID`
cookie; every branch sends one Telegram message after the POST. -/
def login (env : Env) : Bool × List Event :=
  match env.loginResp with
  | none => (false, [.loginAttempt, .notify])
  | some (status, cookie) =>
    if status = 200 then
      if truthy cookie then (true, [.loginAttempt, .notify])
      else (false, [.loginAttempt, .notify])
    else (false, [.loginAttempt, .notify])

/-- Model of `WebScraper.get_data_from_ajax`: `None` on exception or non-200 status,
otherwise the checkbox extraction on the parsed body. -/
def get_data_from_ajax (env : Env) (date : String) (week_code tr_index td_index : Nat) :
    Option String :=
  match env.ajaxResp date week_code with
  | none => none
  | some (status, doc) =>
    if status ≠ 200 then none
    else extract_checkbox_value doc tr_index td_index

/-- Model of `WebScraper.make_reservation` for one token (the `month` field only feeds
the payload). -/
def make_reservation (env : Env) (token : String) : Bool :=
  reservation_success (env.reserveResp token)

/-- The Sunday sample lookup of `run_scraper`: first Sunday of the month,
`week_chk = 0`, row 2, column 4. -/
def sunday_sample (env : Env) (year month : Nat) : Option String :=
  get_data_from_ajax env (get_first_weekday_of_month year month 6) 0 2 4

/-- The Wednesday sample lookup of `run_scraper`: first Wednesday,
`week_chk = 3`, row 16, column 6. -/
def wednesday_sample (env : Env) (year month : Nat) : Option String :=
  get_data_from_ajax env (get_first_weekday_of_month year month 2) 3 16 6

/-- The Saturday sample lookup of `run_scraper`: first Saturday,
`week_chk = 6`, row 14, column 5. -/
def saturday_sample (env : Env) (year month : Nat) : Option String :=
  get_data_from_ajax env (get_first_weekday_of_month year month 5) 6 14 5

/-- The `sunday_values` list as computed by `run_scraper`: 4 sequential values when the
sample is truthy, otherwise the initial empty list. -/
def sunday_values_of (env : Env) (year month : Nat) : List Int :=
  match sunday_sample env year month with
  | some v => if v = "" then [] else generate_sequential_values v 4
  | none => []

/-- The `wednesday_values` list as computed by `run_scraper` (2 sequential values). -/
def wednesday_values_of (env : Env) (year month : Nat) : List Int :=
  match wednesday_sample env year month with
  | some v => if v = "" then [] else generate_sequential_values v 2
  | none => []

/-- The `saturday_values` list as computed by `run_scraper` (2 sequential values). -/
def saturday_values_of (env : Env) (year month : Nat) : List Int :=
  match saturday_sample env year month with
  | some v => if v = "" then [] else generate_sequential_values v 2
  | none => []

/-- The `results` dictionary of `run_scraper`: each weekday key is present
exactly when its sample was truthy; `monthly_reservations` is present exactly
when the full token list was built and nonempty. -/
structure Results where
  sunday : Option (List Int)
  wednesday : Option (List Int)
  saturday : Option (List Int)
  monthly_reservations : Option (List String)
deriving DecidableEq, Repr

/-- Model of `WebScraper.run_scraper`: start notification; login (halting with `None`
on failure); three discovery lookups, each adding a failure notification when
its sample is falsy; then, when all three value lists are nonempty and the
built month is nonempty, one reservation POST plus one notification per token
followed by the summary notification; otherwise the corresponding abort
notification; and in every post-login path the final completion notification
and the `results` dictionary. -/
def run_scraper (env : Env) (year month : Nat) : Option Results × List Event :=
  let ev0 : List Event := [.notify]
  let lr := login env
  if !lr.1 then
    (none, ev0 ++ lr.2 ++ [.notify])
  else
    let sundaySample := sunday_sample env year month
    let sunday_values := sunday_values_of env year month
    let ev1 : List Event := [.ajaxCall 0] ++ (if truthy sundaySample then [] else [.notify])
    let wednesdaySample := wednesday_sample env year month
    let wednesday_values := wednesday_values_of env year month
    let ev2 : List Event := [.ajaxCall 3] ++ (if truthy wednesdaySample then [] else [.notify])
    let saturdaySample := saturday_sample env year month
    let saturday_values := saturday_values_of env year month
    let ev3 : List Event := [.ajaxCall 6] ++ (if truthy saturdaySample then [] else [.notify])
    let results : Results :=
      { sunday := if truthy sundaySample then some sunday_values else none
        wednesday := if truthy wednesdaySample then some wednesday_values else none
        saturday := if truthy saturdaySample then some saturday_values else none
        monthly_reservations := none }
    if !sunday_values.isEmpty && !wednesday_values.isEmpty && !saturday_values.isEmpty then
      let monthly_reservations :=
        generate_monthly_reservations year month sunday_values wednesday_values saturday_values
      if !monthly_reservations.isEmpty then
        let subEv := monthly_reservations.flatMap (fun t => [Event.reserveCall t, Event.notify])
        (some { results with monthly_reservations := some monthly_reservations },
         ev0 ++ lr.2 ++ ev1 ++ ev2 ++ ev3 ++ subEv ++ [.notify] ++ [.notify])
      else
        (some results, ev0 ++ lr.2 ++ ev1 ++ ev2 ++ ev3 ++ [.notify] ++ [.notify])
    else
      (some results, ev0 ++ lr.2 ++ ev1 ++ ev2 ++ ev3 ++ [.notify] ++ [.notify])

/-- The `__main__` guard: proceed into `run_scraper` only when today is a
Monday within the first 7 days of its month; otherwise send one Telegram
message and exit. -/
def main_entry (env : Env) (year month day : Nat) : List Event :=
  if pyWeekday year month day == 0 && 1 ≤ day && day ≤ 7 then
    (run_scraper env year month).2
  else [.notify]

/-! ## Helper lemmas -/

/-- Lemma: `find?` returns the head of the filtered list. -/
lemma find?_eq_head?_filter {α : Type} (p : α → Bool) :
    ∀ l : List α, l.find? p = (l.filter p).head? := by
  intro l
  induction l with
  | nil => rfl
  | cons a t ih =>
    by_cases h : p a = true
    · rw [List.find?_cons_of_pos _ h, List.filter_cons_of_pos h, List.head?_cons]
    · rw [List.find?_cons_of_neg _ h, List.filter_cons_of_neg h, ih]

/-- Every month has at least 28 days. -/
lemma daysInMonth_ge_28 (y m : Nat) : 28 ≤ daysInMonth y m := by
  unfold daysInMonth
  split
  · split <;> omega
  · split <;> omega

/-! ## C1: what `generate_sequential_values` returns -/

/-- On a well-formed sample, `generate_sequential_values` returns the `count`
consecutive integers starting at the sample's leading numeric field — numeric
values only, with no date or category component attached. -/
theorem generate_sequential_values_spec (sample : String) (count : Nat) (base : Int)
    (hs : sample ≠ "") (hlen : 3 ≤ (pySplitPipes sample).length)
    (hbase : pyInt ((pySplitPipes sample).headD "") = some base) :
    generate_sequential_values sample count = (List.range count).map (fun (i : Nat) => base + (i : Int)) := by
  unfold generate_sequential_values
  rw [if_neg hs, if_neg (Nat.not_lt.mpr hlen)]
  split
  · next heq => rw [heq] at hlen; simp at hlen
  · next p rest heq =>
    rw [heq, List.headD_cons] at hbase
    rw [hbase]

/-- C1: the claim's asserted output — a list of four full `CourtIdentifier`
strings — is not what the code produces: the produced family is the list of
bare integers `[250100, 250101, 250102, 250103]`, which (rendered as strings)
carries neither the category code nor the date of the sample. -/
theorem claim_C1_counterexample :
    generate_sequential_values "250100||4||20250803" 4 = [250100, 250101, 250102, 250103] ∧
    (generate_sequential_values "250100||4||20250803" 4).map toString ≠
      ["250100||4||20250803", "250101||4||20250803",
       "250102||4||20250803", "250103||4||20250803"] := by
  constructor
  · decide
  · decide

/-- C1 (amended): `deriveFamily` returns the `n` numeric prefixes
`sample.numericPrefix + i` for `i ∈ [0, n)` as integers; the date and
category code are not part of its output. -/
theorem claim_C1 (sample : String) (count : Nat) (base : Int)
    (hs : sample ≠ "") (hlen : 3 ≤ (pySplitPipes sample).length)
    (hbase : pyInt ((pySplitPipes sample).headD "") = some base) :
    generate_sequential_values sample count = (List.range count).map (fun (i : Nat) => base + (i : Int)) :=
  generate_sequential_values_spec sample count base hs hlen hbase

/-- Witness for C1 at the spec's own example. -/
theorem claim_C1_witness :
    "250100||4||20250803" ≠ "" ∧
    3 ≤ (pySplitPipes "250100||4||20250803").length ∧
    pyInt ((pySplitPipes "250100||4||20250803").headD "") = some 250100 ∧
    generate_sequential_values "250100||4||20250803" 4 =
      (List.range 4).map (fun (i : Nat) => (250100 : Int) + (i : Int)) :=
  ⟨by decide, by decide, by decide,
   claim_C1 "250100||4||20250803" 4 250100 (by decide) (by decide) (by decide)⟩

/-! ## C5: when `generate_sequential_values` is empty -/

/-- The failure conditions checked by `generate_sequential_values`, in code
order: falsy sample, fewer than three `'||'`-separated fields, non-integer
first field. -/
def sample_rejected (s : String) : Bool :=
  decide (s = "") || decide ((pySplitPipes s).length < 3) ||
    (pyInt ((pySplitPipes s).headD "")).isNone

/-- C5 counterexample: at `count = 0` the result is empty although the sample
passes every check, so "empty exactly when the sample is bad, for every count"
fails. -/
theorem claim_C5_counterexample :
    generate_sequential_values "250100||4||20250803" 0 = [] ∧
    sample_rejected "250100||4||20250803" = false := by
  constructor
  · decide
  · decide

/-- C5 (amended): for every count `≥ 1`, the result is empty exactly when the
sample is empty, has fewer than 2 `'||'` separators, or has a non-integer
first field (for `count ≤ 0` the result is empty regardless). No exception is
raised in any case: the function is total. -/
theorem claim_C5 (s : String) (count : Nat) (hc : 1 ≤ count) :
    generate_sequential_values s count = [] ↔ sample_rejected s = true := by
  by_cases hs : s = ""
  · simp [generate_sequential_values, sample_rejected, hs]
  · by_cases hlen : (pySplitPipes s).length < 3
    · simp [generate_sequential_values, sample_rejected, hs, hlen]
    · cases hbase : pyInt ((pySplitPipes s).headD "") with
      | none =>
        constructor
        · intro _
          unfold sample_rejected
          rw [hbase]
          simp
        · intro _
          unfold generate_sequential_values
          rw [if_neg hs, if_neg hlen]
          cases hp : pySplitPipes s with
          | nil => rfl
          | cons p rest =>
            rw [hp, List.headD_cons] at hbase
            simp [hbase]
      | some b =>
        rw [generate_sequential_values_spec s count b hs (Nat.not_lt.mp hlen) hbase]
        rw [List.headD_eq_head?_getD] at hbase
        constructor
        · intro h
          simp only [List.map_eq_nil_iff, List.range_eq_nil] at h
          omega
        · intro h
          exfalso
          simp [sample_rejected, hs, hlen, hbase] at h

/-- Witness for C5 at the spec's `deriveFamily("bad||x", 2)` example. -/
theorem claim_C5_witness :
    (generate_sequential_values "bad||x" 2 = [] ↔ sample_rejected "bad||x" = true) ∧
    generate_sequential_values "bad||x" 2 = [] ∧
    generate_sequential_values "" 4 = [] :=
  ⟨claim_C5 "bad||x" 2 (by decide), by decide, by decide⟩

/-! ## C8: reservation response classification -/

/-- C8: an HTTP-200 body containing the cart phrase but not the exclusion
phrase is `Accepted`; containing both is `AcceptedWithExclusion`; a body
without the cart phrase, a non-200 status, or a transport error is `Failed`;
and `make_reservation`'s boolean treats exactly the two accepted outcomes as
handled/success. -/
theorem claim_C8 (status : Nat) (body : String) :
    (status = 200 → strContains body cartPhrase = true → strContains body exclusionPhrase = false →
      classify_reservation (some (status, body)) = .Accepted)
  ∧ (status = 200 → strContains body cartPhrase = true → strContains body exclusionPhrase = true →
      classify_reservation (some (status, body)) = .AcceptedWithExclusion)
  ∧ (strContains body cartPhrase = false → classify_reservation (some (status, body)) = .Failed)
  ∧ (status ≠ 200 → classify_reservation (some (status, body)) = .Failed)
  ∧ (classify_reservation none = .Failed)
  ∧ (reservation_success (some (status, body)) = true ↔
      classify_reservation (some (status, body)) ≠ .Failed)
  ∧ (reservation_success none = false) := by
  refine ⟨?_, ?_, ?_, ?_, rfl, ?_, rfl⟩
  · intro h1 h2 h3
    simp [classify_reservation, h1, h2, h3]
  · intro h1 h2 h3
    simp [classify_reservation, h1, h2, h3]
  · intro h
    simp [classify_reservation, h]
  · intro h
    simp [classify_reservation, h]
  · simp only [reservation_success, classify_reservation]
    split_ifs <;> simp

/-- Witness for C8: a clean-success body classifies as `Accepted`. -/
theorem claim_C8_witness :
    classify_reservation (some (200, "결과: 장바구니에 담았습니다.")) = .Accepted :=
  (claim_C8 200 "결과: 장바구니에 담았습니다.").1 rfl (by decide) (by decide)

/-! ## C4: first/last weekday anchors -/

/-- Lemma: `pyWeekday` written as an affine expression of the day, for `omega`. -/
lemma pyWeekday_eq (y m d : Nat) :
    pyWeekday y m d = (daysBeforeYear y + daysBeforeMonth y m + d - 1) % 7 := rfl

/-- C4: for every valid year, month and weekday, `get_first_weekday_of_month`
targets a day in 1..7 of the month with the requested weekday, and
`get_last_weekday_of_month` targets a day within the last 7 days of the month
with the requested weekday; both return that day formatted `'%Y-%m-%d'`.
This covers all month lengths 28–31, leap Februaries included, via
`daysInMonth`. -/
theorem claim_C4 (y m w : Nat) (hy : 1 ≤ y) (hm1 : 1 ≤ m) (hm2 : m ≤ 12) (hw : w ≤ 6) :
    1 ≤ first_weekday_day y m w ∧ first_weekday_day y m w ≤ 7 ∧
    pyWeekday y m (first_weekday_day y m w) = w ∧
    get_first_weekday_of_month y m w = fmtDashed y m (first_weekday_day y m w) ∧
    daysInMonth y m - 6 ≤ last_weekday_day y m w ∧
    last_weekday_day y m w ≤ daysInMonth y m ∧
    pyWeekday y m (last_weekday_day y m w) = w ∧
    get_last_weekday_of_month y m w = fmtDashed y m (last_weekday_day y m w) := by
  have h28 : 28 ≤ daysInMonth y m := daysInMonth_ge_28 y m
  have hfw : 1 ≤ first_weekday_day y m w ∧ first_weekday_day y m w ≤ 7 ∧
      pyWeekday y m (first_weekday_day y m w) = w := by
    simp only [first_weekday_day, pyWeekday_eq]
    split <;> omega
  have hlw : daysInMonth y m - 6 ≤ last_weekday_day y m w ∧
      last_weekday_day y m w ≤ daysInMonth y m ∧
      pyWeekday y m (last_weekday_day y m w) = w := by
    simp only [last_weekday_day, pyWeekday_eq]
    omega
  exact ⟨hfw.1, hfw.2.1, hfw.2.2, rfl, hlw.1, hlw.2.1, hlw.2.2, rfl⟩

/-- Witness for C4 at leap-year February 2024 and weekday Monday. -/
theorem claim_C4_witness :
    1 ≤ first_weekday_day 2024 2 0 ∧ first_weekday_day 2024 2 0 ≤ 7 ∧
    pyWeekday 2024 2 (first_weekday_day 2024 2 0) = 0 ∧
    get_first_weekday_of_month 2024 2 0 = fmtDashed 2024 2 (first_weekday_day 2024 2 0) ∧
    daysInMonth 2024 2 - 6 ≤ last_weekday_day 2024 2 0 ∧
    last_weekday_day 2024 2 0 ≤ daysInMonth 2024 2 ∧
    pyWeekday 2024 2 (last_weekday_day 2024 2 0) = 0 ∧
    get_last_weekday_of_month 2024 2 0 = fmtDashed 2024 2 (last_weekday_day 2024 2 0) :=
  claim_C4 2024 2 0 (by decide) (by decide) (by decide) (by decide)

/-! ## C2/C3: the monthly reservation builder -/

/-- The day loop is the concatenation, in ascending day order, of each day's
contribution. -/
lemma genMonthAux_eq_flatMap (y m : Nat) (sv wv stv : List Int) :
    ∀ r d, genMonthAux y m sv wv stv r d =
      (List.range' d r).flatMap (fun day => dayReservations y m day sv wv stv) := by
  intro r
  induction r with
  | zero => intro d; simp [genMonthAux]
  | succ n ih =>
    intro d
    rw [List.range'_succ]
    simp only [List.flatMap_cons, genMonthAux, ih]

/-- A 4-element initial segment, elementwise. -/
lemma take4_map_eq {β : Type} (l : List Int) (h : 4 ≤ l.length) (f : Int → β) :
    (l.take 4).map f = [f (l.getD 0 0), f (l.getD 1 0), f (l.getD 2 0), f (l.getD 3 0)] := by
  rcases l with _ | ⟨a, _ | ⟨b, _ | ⟨c, _ | ⟨d, t⟩⟩⟩⟩ <;> simp_all [List.getD]

/-- A 2-element initial segment, elementwise. -/
lemma take2_map_eq {β : Type} (l : List Int) (h : 2 ≤ l.length) (f : Int → β) :
    (l.take 2).map f = [f (l.getD 0 0), f (l.getD 1 0)] := by
  rcases l with _ | ⟨a, _ | ⟨b, t⟩⟩ <;> simp_all [List.getD]

/-- One day's contribution, with full-length families, in the spec's
slot-index order over the family's initial segment. -/
lemma dayReservations_full (y m day : Nat) (sv wv stv : List Int)
    (hs : 4 ≤ sv.length) (hw : 2 ≤ wv.length) (hst : 2 ≤ stv.length) :
    dayReservations y m day sv wv stv =
      if pyWeekday y m day = 6 then
        (sv.take 4).map (fun v => toString v ++ "||4||" ++ fmtCompact y m day)
      else if pyWeekday y m day = 2 then
        (wv.take 2).map (fun v => toString v ++ "||6||" ++ fmtCompact y m day)
      else if pyWeekday y m day = 5 then
        (stv.take 2).map (fun v => toString v ++ "||5||" ++ fmtCompact y m day)
      else [] := by
  unfold dayReservations
  split_ifs with h6 h2 h5 <;>
    simp [take4_map_eq _ hs, take2_map_eq _ hw, take2_map_eq _ hst]

/-- Token count over any day list: 4 per Sunday, 2 per Wednesday, 2 per
Saturday, given full-length families. -/
lemma flatMap_day_length (y m : Nat) (sv wv stv : List Int)
    (hs : 4 ≤ sv.length) (hw : 2 ≤ wv.length) (hst : 2 ≤ stv.length) :
    ∀ days : List Nat,
      ((days.flatMap (fun day => dayReservations y m day sv wv stv)).length =
        4 * days.countP (fun d => pyWeekday y m d == 6) +
        2 * days.countP (fun d => pyWeekday y m d == 2) +
        2 * days.countP (fun d => pyWeekday y m d == 5)) := by
  intro days
  induction days with
  | nil => simp
  | cons d rest ih =>
    simp only [List.flatMap_cons, List.length_append, ih, List.countP_cons]
    have hd : (dayReservations y m d sv wv stv).length =
        (if pyWeekday y m d == 6 then 4 else 0) +
        (if pyWeekday y m d == 2 then 2 else 0) +
        (if pyWeekday y m d == 5 then 2 else 0) := by
      unfold dayReservations
      split_ifs with h6 h2 h5 <;> simp_all
    rw [hd]
    split_ifs <;> simp_all <;> omega

/-- C2: with full-length families, the built month is exactly, in ascending
calendar-day order, 4 slot-ordered category-4 tokens per Sunday from the
Sunday family's first 4 members, 2 category-6 tokens per Wednesday, and 2
category-5 tokens per Saturday, each stamped with that day's `YYYYMMDD`;
the total count is `4·#Sundays + 2·#Wednesdays + 2·#Saturdays`, hence 34 in
a month with 4 Sundays, 4 Wednesdays and 5 Saturdays. -/
theorem claim_C2 (y m : Nat) (sv wv stv : List Int)
    (hs : 4 ≤ sv.length) (hw : 2 ≤ wv.length) (hst : 2 ≤ stv.length) :
    (generate_monthly_reservations y m sv wv stv =
      (List.range' 1 (daysInMonth y m)).flatMap (fun day =>
        if pyWeekday y m day = 6 then
          (sv.take 4).map (fun v => toString v ++ "||4||" ++ fmtCompact y m day)
        else if pyWeekday y m day = 2 then
          (wv.take 2).map (fun v => toString v ++ "||6||" ++ fmtCompact y m day)
        else if pyWeekday y m day = 5 then
          (stv.take 2).map (fun v => toString v ++ "||5||" ++ fmtCompact y m day)
        else []))
  ∧ (generate_monthly_reservations y m sv wv stv).length =
      4 * countWeekday y m 6 + 2 * countWeekday y m 2 + 2 * countWeekday y m 5
  ∧ (countWeekday y m 6 = 4 → countWeekday y m 2 = 4 → countWeekday y m 5 = 5 →
      (generate_monthly_reservations y m sv wv stv).length = 34) := by
  have hmain : generate_monthly_reservations y m sv wv stv =
      (List.range' 1 (daysInMonth y m)).flatMap
        (fun day => dayReservations y m day sv wv stv) := by
    unfold generate_monthly_reservations
    exact genMonthAux_eq_flatMap y m sv wv stv (daysInMonth y m) 1
  have hlen : (generate_monthly_reservations y m sv wv stv).length =
      4 * countWeekday y m 6 + 2 * countWeekday y m 2 + 2 * countWeekday y m 5 := by
    rw [hmain, flatMap_day_length y m sv wv stv hs hw hst]
    rfl
  refine ⟨?_, hlen, ?_⟩
  · rw [hmain]
    congr 1
    funext day
    exact dayReservations_full y m day sv wv stv hs hw hst
  · intro h6 h2 h5
    rw [hlen, h6, h2, h5]

/-- Witness for C2: May 2025 has 4 Sundays, 4 Wednesdays and 5 Saturdays,
yielding 34 tokens. -/
theorem claim_C2_witness :
    (generate_monthly_reservations 2025 5 [1, 2, 3, 4] [5, 6] [7, 8]).length = 34 :=
  (claim_C2 2025 5 [1, 2, 3, 4] [5, 6] [7, 8] (by decide) (by decide) (by decide)).2.2
    (by decide) (by decide) (by decide)

/-- One day's contribution with an undersized Wednesday family: Wednesdays
contribute nothing, other weekdays are unchanged. -/
lemma dayReservations_wedShort (y m day : Nat) (sv wv stv : List Int)
    (hs : 4 ≤ sv.length) (hw : wv.length < 2) (hst : 2 ≤ stv.length) :
    dayReservations y m day sv wv stv =
      if pyWeekday y m day = 6 then
        (sv.take 4).map (fun v => toString v ++ "||4||" ++ fmtCompact y m day)
      else if pyWeekday y m day = 2 then []
      else if pyWeekday y m day = 5 then
        (stv.take 2).map (fun v => toString v ++ "||5||" ++ fmtCompact y m day)
      else [] := by
  unfold dayReservations
  split_ifs with h6 h2 h5 <;>
    simp_all [take4_map_eq _ hs, take2_map_eq _ hst, Nat.not_le.mpr hw]

/-- One day's contribution with an undersized Sunday family: Sundays
contribute nothing, other weekdays are unchanged. -/
lemma dayReservations_sunShort (y m day : Nat) (sv wv stv : List Int)
    (hs : sv.length < 4) (hw : 2 ≤ wv.length) (hst : 2 ≤ stv.length) :
    dayReservations y m day sv wv stv =
      if pyWeekday y m day = 6 then []
      else if pyWeekday y m day = 2 then
        (wv.take 2).map (fun v => toString v ++ "||6||" ++ fmtCompact y m day)
      else if pyWeekday y m day = 5 then
        (stv.take 2).map (fun v => toString v ++ "||5||" ++ fmtCompact y m day)
      else [] := by
  unfold dayReservations
  split_ifs with h6 h2 h5 <;>
    simp_all [take2_map_eq _ hw, take2_map_eq _ hst, Nat.not_le.mpr hs]

/-- One day's contribution with an undersized Saturday family: Saturdays
contribute nothing, other weekdays are unchanged. -/
lemma dayReservations_satShort (y m day : Nat) (sv wv stv : List Int)
    (hs : 4 ≤ sv.length) (hw : 2 ≤ wv.length) (hst : stv.length < 2) :
    dayReservations y m day sv wv stv =
      if pyWeekday y m day = 6 then
        (sv.take 4).map (fun v => toString v ++ "||4||" ++ fmtCompact y m day)
      else if pyWeekday y m day = 2 then
        (wv.take 2).map (fun v => toString v ++ "||6||" ++ fmtCompact y m day)
      else if pyWeekday y m day = 5 then []
      else [] := by
  unfold dayReservations
  split_ifs with h6 h2 h5 <;>
    simp_all [take4_map_eq _ hs, take2_map_eq _ hw, Nat.not_le.mpr hst]

/-- Token count over any day list for a per-weekday contribution of fixed
per-day lengths `a`, `b`, `c`. -/
lemma flatMap_weekday_length (y m : Nat) (f6 f2 f5 : Nat → List String) (a b c : Nat)
    (h6 : ∀ day, (f6 day).length = a) (h2 : ∀ day, (f2 day).length = b)
    (h5 : ∀ day, (f5 day).length = c) :
    ∀ days : List Nat,
      ((days.flatMap (fun day =>
        if pyWeekday y m day = 6 then f6 day
        else if pyWeekday y m day = 2 then f2 day
        else if pyWeekday y m day = 5 then f5 day
        else [])).length =
        a * days.countP (fun d => pyWeekday y m d == 6) +
        b * days.countP (fun d => pyWeekday y m d == 2) +
        c * days.countP (fun d => pyWeekday y m d == 5)) := by
  intro days
  induction days with
  | nil => simp
  | cons d rest ih =>
    simp only [List.flatMap_cons, List.length_append, ih, List.countP_cons]
    split_ifs with h6' h2' h5' <;> simp_all <;> ring

/-- C3: whichever single weekday's family is undersized (Sunday < 4,
Wednesday < 2 or Saturday < 2), that weekday contributes zero tokens on every
one of its occurrences in the month while the other two weekdays' tokens are
exactly those of the full-family build; the result coincides with the build
over an empty family for that weekday, the length formula loses exactly that
weekday's share, and the build is total (no abort). -/
theorem claim_C3 (y m : Nat) (sv wv stv : List Int) :
    (sv.length < 4 → 2 ≤ wv.length → 2 ≤ stv.length →
      (generate_monthly_reservations y m sv wv stv =
        (List.range' 1 (daysInMonth y m)).flatMap (fun day =>
          if pyWeekday y m day = 6 then []
          else if pyWeekday y m day = 2 then
            (wv.take 2).map (fun v => toString v ++ "||6||" ++ fmtCompact y m day)
          else if pyWeekday y m day = 5 then
            (stv.take 2).map (fun v => toString v ++ "||5||" ++ fmtCompact y m day)
          else []))
      ∧ generate_monthly_reservations y m sv wv stv =
          generate_monthly_reservations y m [] wv stv
      ∧ (generate_monthly_reservations y m sv wv stv).length =
          2 * countWeekday y m 2 + 2 * countWeekday y m 5)
  ∧ (4 ≤ sv.length → wv.length < 2 → 2 ≤ stv.length →
      (generate_monthly_reservations y m sv wv stv =
        (List.range' 1 (daysInMonth y m)).flatMap (fun day =>
          if pyWeekday y m day = 6 then
            (sv.take 4).map (fun v => toString v ++ "||4||" ++ fmtCompact y m day)
          else if pyWeekday y m day = 2 then []
          else if pyWeekday y m day = 5 then
            (stv.take 2).map (fun v => toString v ++ "||5||" ++ fmtCompact y m day)
          else []))
      ∧ generate_monthly_reservations y m sv wv stv =
          generate_monthly_reservations y m sv [] stv
      ∧ (generate_monthly_reservations y m sv wv stv).length =
          4 * countWeekday y m 6 + 2 * countWeekday y m 5)
  ∧ (4 ≤ sv.length → 2 ≤ wv.length → stv.length < 2 →
      (generate_monthly_reservations y m sv wv stv =
        (List.range' 1 (daysInMonth y m)).flatMap (fun day =>
          if pyWeekday y m day = 6 then
            (sv.take 4).map (fun v => toString v ++ "||4||" ++ fmtCompact y m day)
          else if pyWeekday y m day = 2 then
            (wv.take 2).map (fun v => toString v ++ "||6||" ++ fmtCompact y m day)
          else if pyWeekday y m day = 5 then []
          else []))
      ∧ generate_monthly_reservations y m sv wv stv =
          generate_monthly_reservations y m sv wv []
      ∧ (generate_monthly_reservations y m sv wv stv).length =
          4 * countWeekday y m 6 + 2 * countWeekday y m 2) := by
  refine ⟨?_, ?_, ?_⟩
  · intro h1 h2 h3
    have hmain : ∀ sv' : List Int, sv'.length < 4 →
        generate_monthly_reservations y m sv' wv stv =
          (List.range' 1 (daysInMonth y m)).flatMap (fun day =>
            if pyWeekday y m day = 6 then []
            else if pyWeekday y m day = 2 then
              (wv.take 2).map (fun v => toString v ++ "||6||" ++ fmtCompact y m day)
            else if pyWeekday y m day = 5 then
              (stv.take 2).map (fun v => toString v ++ "||5||" ++ fmtCompact y m day)
            else []) := by
      intro sv' hs'
      unfold generate_monthly_reservations
      rw [genMonthAux_eq_flatMap y m sv' wv stv (daysInMonth y m) 1]
      congr 1
      funext day
      exact dayReservations_sunShort y m day sv' wv stv hs' h2 h3
    refine ⟨hmain sv h1, ?_, ?_⟩
    · rw [hmain sv h1, hmain [] (by simp)]
    · have hlen := flatMap_weekday_length y m (fun _ => ([] : List String))
        (fun day => (wv.take 2).map (fun v => toString v ++ "||6||" ++ fmtCompact y m day))
        (fun day => (stv.take 2).map (fun v => toString v ++ "||5||" ++ fmtCompact y m day))
        0 2 2 (fun _ => rfl)
        (fun day => by simp [List.length_take]; omega)
        (fun day => by simp [List.length_take]; omega)
        (List.range' 1 (daysInMonth y m))
      rw [hmain sv h1, hlen]
      simp only [countWeekday]
      omega
  · intro h1 h2 h3
    have hmain : ∀ wv' : List Int, wv'.length < 2 →
        generate_monthly_reservations y m sv wv' stv =
          (List.range' 1 (daysInMonth y m)).flatMap (fun day =>
            if pyWeekday y m day = 6 then
              (sv.take 4).map (fun v => toString v ++ "||4||" ++ fmtCompact y m day)
            else if pyWeekday y m day = 2 then []
            else if pyWeekday y m day = 5 then
              (stv.take 2).map (fun v => toString v ++ "||5||" ++ fmtCompact y m day)
            else []) := by
      intro wv' hw'
      unfold generate_monthly_reservations
      rw [genMonthAux_eq_flatMap y m sv wv' stv (daysInMonth y m) 1]
      congr 1
      funext day
      exact dayReservations_wedShort y m day sv wv' stv h1 hw' h3
    refine ⟨hmain wv h2, ?_, ?_⟩
    · rw [hmain wv h2, hmain [] (by simp)]
    · have hlen := flatMap_weekday_length y m
        (fun day => (sv.take 4).map (fun v => toString v ++ "||4||" ++ fmtCompact y m day))
        (fun _ => ([] : List String))
        (fun day => (stv.take 2).map (fun v => toString v ++ "||5||" ++ fmtCompact y m day))
        4 0 2
        (fun day => by simp [List.length_take]; omega)
        (fun _ => rfl)
        (fun day => by simp [List.length_take]; omega)
        (List.range' 1 (daysInMonth y m))
      rw [hmain wv h2, hlen]
      simp only [countWeekday]
      omega
  · intro h1 h2 h3
    have hmain : ∀ stv' : List Int, stv'.length < 2 →
        generate_monthly_reservations y m sv wv stv' =
          (List.range' 1 (daysInMonth y m)).flatMap (fun day =>
            if pyWeekday y m day = 6 then
              (sv.take 4).map (fun v => toString v ++ "||4||" ++ fmtCompact y m day)
            else if pyWeekday y m day = 2 then
              (wv.take 2).map (fun v => toString v ++ "||6||" ++ fmtCompact y m day)
            else if pyWeekday y m day = 5 then []
            else []) := by
      intro stv' hst'
      unfold generate_monthly_reservations
      rw [genMonthAux_eq_flatMap y m sv wv stv' (daysInMonth y m) 1]
      congr 1
      funext day
      exact dayReservations_satShort y m day sv wv stv' h1 h2 hst'
    refine ⟨hmain stv h3, ?_, ?_⟩
    · rw [hmain stv h3, hmain [] (by simp)]
    · have hlen := flatMap_weekday_length y m
        (fun day => (sv.take 4).map (fun v => toString v ++ "||4||" ++ fmtCompact y m day))
        (fun day => (wv.take 2).map (fun v => toString v ++ "||6||" ++ fmtCompact y m day))
        (fun _ => ([] : List String))
        4 2 0
        (fun day => by simp [List.length_take]; omega)
        (fun day => by simp [List.length_take]; omega)
        (fun _ => rfl)
        (List.range' 1 (daysInMonth y m))
      rw [hmain stv h3, hlen]
      simp only [countWeekday]
      omega

/-- Witness for C3 in May 2025: a length-3 Sunday family, a length-1
Wednesday family and a length-1 Saturday family each behave as an empty one,
with the other two families untouched. -/
theorem claim_C3_witness :
    generate_monthly_reservations 2025 5 [1, 2, 3] [5, 6] [7, 8] =
      generate_monthly_reservations 2025 5 [] [5, 6] [7, 8]
  ∧ generate_monthly_reservations 2025 5 [1, 2, 3, 4] [9] [7, 8] =
      generate_monthly_reservations 2025 5 [1, 2, 3, 4] [] [7, 8]
  ∧ generate_monthly_reservations 2025 5 [1, 2, 3, 4] [5, 6] [7] =
      generate_monthly_reservations 2025 5 [1, 2, 3, 4] [5, 6] [] :=
  ⟨((claim_C3 2025 5 [1, 2, 3] [5, 6] [7, 8]).1 (by decide) (by decide) (by decide)).2.1,
   ((claim_C3 2025 5 [1, 2, 3, 4] [9] [7, 8]).2.1 (by decide) (by decide) (by decide)).2.1,
   ((claim_C3 2025 5 [1, 2, 3, 4] [5, 6] [7]).2.2 (by decide) (by decide) (by decide)).2.1⟩

/-! ## C6: the checkbox-value extraction policy -/

/-- The `value` attribute of the first checkbox input of a cell, when that
input exists. -/
def cell_checkbox_value (cell : HtmlCell) : Option String :=
  match cell.inputs.find? (fun inp => inp.typeAttr == "checkbox") with
  | none => none
  | some input_tag => input_tag.valueAttr

/-- C6: the table cascade tries the exact class signature, then the looser
class, then the first table, first success winning (each stage returns the
document-order-first match); with a selected table, the extraction returns
`none` exactly on a row-index overflow, a cell-index overflow, a missing
checkbox input or a missing/empty `value` attribute, and otherwise returns
the value attribute's content (any nonempty string, unvalidated). -/
theorem claim_C6 (doc : HtmlDoc) (tr_index td_index : Nat)
    (htr : 1 ≤ tr_index) (htd : 1 ≤ td_index) :
    (findTable doc = none ↔ doc = [])
  ∧ (doc.filter isSpecificTable ≠ [] →
      findTable doc = (doc.filter isSpecificTable).head?)
  ∧ (doc.filter isSpecificTable = [] → doc.filter isLooseTable ≠ [] →
      findTable doc = (doc.filter isLooseTable).head?)
  ∧ (doc.filter isSpecificTable = [] → doc.filter isLooseTable = [] →
      findTable doc = doc.head?)
  ∧ (doc = [] → extract_checkbox_value doc tr_index td_index = none)
  ∧ (∀ tbl, findTable doc = some tbl →
      (extract_checkbox_value doc tr_index td_index = none ↔
        (tbl.rows.length < tr_index ∨
         (tbl.rows.getD (tr_index - 1) ⟨[]⟩).cells.length < td_index ∨
         cell_checkbox_value
           ((tbl.rows.getD (tr_index - 1) ⟨[]⟩).cells.getD (td_index - 1) ⟨[]⟩) = none ∨
         cell_checkbox_value
           ((tbl.rows.getD (tr_index - 1) ⟨[]⟩).cells.getD (td_index - 1) ⟨[]⟩) = some "")))
  ∧ (∀ tbl v, findTable doc = some tbl →
      (extract_checkbox_value doc tr_index td_index = some v ↔
        (tr_index ≤ tbl.rows.length ∧
         td_index ≤ (tbl.rows.getD (tr_index - 1) ⟨[]⟩).cells.length ∧
         cell_checkbox_value
           ((tbl.rows.getD (tr_index - 1) ⟨[]⟩).cells.getD (td_index - 1) ⟨[]⟩) = some v ∧
         v ≠ ""))) := by
  have hspec := find?_eq_head?_filter isSpecificTable doc
  have hloose := find?_eq_head?_filter isLooseTable doc
  refine ⟨?_, ?_, ?_, ?_, ?_, ?_, ?_⟩
  · constructor
    · intro h
      unfold findTable at h
      revert h
      cases h1 : doc.find? isSpecificTable
      · cases h2 : doc.find? isLooseTable
        · intro h; exact List.head?_eq_none_iff.mp h
        · intro h; exact absurd h (by simp)
      · intro h; exact absurd h (by simp)
    · intro h; subst h; rfl
  · intro hne
    unfold findTable
    cases h1 : doc.find? isSpecificTable with
    | none =>
      rw [h1] at hspec
      exact absurd (List.head?_eq_none_iff.mp hspec.symm) hne
    | some t =>
      rw [h1] at hspec
      exact hspec
  · intro hs hne
    unfold findTable
    have h1 : doc.find? isSpecificTable = none := by
      rw [hspec, hs]; rfl
    rw [h1]
    cases h2 : doc.find? isLooseTable with
    | none =>
      rw [h2] at hloose
      exact absurd (List.head?_eq_none_iff.mp hloose.symm) hne
    | some t =>
      rw [h2] at hloose
      exact hloose
  · intro hs hl
    unfold findTable
    have h1 : doc.find? isSpecificTable = none := by rw [hspec, hs]; rfl
    have h2 : doc.find? isLooseTable = none := by rw [hloose, hl]; rfl
    rw [h1, h2]
  · intro h; subst h; rfl
  · intro tbl hft
    unfold extract_checkbox_value
    rw [hft]
    dsimp only
    by_cases hr : tbl.rows.length < tr_index
    · simp [hr]
    · have hrlt : tr_index - 1 < tbl.rows.length := by omega
      have hrow : tbl.rows[tr_index - 1]? = some (tbl.rows.getD (tr_index - 1) ⟨[]⟩) := by
        rw [List.getD_eq_getElem?_getD, List.getElem?_eq_getElem hrlt]
        rfl
      rw [if_neg hr, hrow]
      dsimp only
      set row := tbl.rows.getD (tr_index - 1) ⟨[]⟩ with hrowdef
      by_cases hc : row.cells.length < td_index
      · simp [hc, hr]
      · have hclt : td_index - 1 < row.cells.length := by omega
        have hcell : row.cells[td_index - 1]? = some (row.cells.getD (td_index - 1) ⟨[]⟩) := by
          rw [List.getD_eq_getElem?_getD, List.getElem?_eq_getElem hclt]
          rfl
        rw [if_neg hc, hcell]
        dsimp only
        set cell := row.cells.getD (td_index - 1) ⟨[]⟩ with hcelldef
        cases hfind : cell.inputs.find? (fun inp => inp.typeAttr == "checkbox") with
        | none => simp [hr, hc, cell_checkbox_value, hfind]
        | some inp =>
          cases hv : inp.valueAttr with
          | none => simp [hr, hc, cell_checkbox_value, hfind, hv]
          | some v' =>
            by_cases hve : v' = ""
            · simp [hr, hc, cell_checkbox_value, hfind, hv, hve]
            · simp [hr, hc, cell_checkbox_value, hfind, hv, hve]
  · intro tbl v hft
    unfold extract_checkbox_value
    rw [hft]
    dsimp only
    by_cases hr : tbl.rows.length < tr_index
    · simp [hr]
    · have hrlt : tr_index - 1 < tbl.rows.length := by omega
      have hrow : tbl.rows[tr_index - 1]? = some (tbl.rows.getD (tr_index - 1) ⟨[]⟩) := by
        rw [List.getD_eq_getElem?_getD, List.getElem?_eq_getElem hrlt]
        rfl
      rw [if_neg hr, hrow]
      dsimp only
      set row := tbl.rows.getD (tr_index - 1) ⟨[]⟩ with hrowdef
      by_cases hc : row.cells.length < td_index
      · simp [hc, hr]
      · have hclt : td_index - 1 < row.cells.length := by omega
        have hcell : row.cells[td_index - 1]? = some (row.cells.getD (td_index - 1) ⟨[]⟩) := by
          rw [List.getD_eq_getElem?_getD, List.getElem?_eq_getElem hclt]
          rfl
        rw [if_neg hc, hcell]
        dsimp only
        set cell := row.cells.getD (td_index - 1) ⟨[]⟩ with hcelldef
        cases hfind : cell.inputs.find? (fun inp => inp.typeAttr == "checkbox") with
        | none => simp [hr, hc, cell_checkbox_value, hfind]
        | some inp =>
          dsimp only
          cases hv : inp.valueAttr with
          | none => simp [hr, hc, cell_checkbox_value, hfind, hv]
          | some v' =>
            dsimp only
            by_cases hve : v' = ""
            · rw [if_pos hve]
              constructor
              · intro h
                exact absurd h (by simp)
              · rintro ⟨-, -, hval, hne⟩
                simp only [cell_checkbox_value, hfind] at hval
                rw [hv] at hval
                have hv' : v' = v := by injection hval
                subst hv'
                exact absurd hve hne
            · rw [if_neg hve]
              constructor
              · intro h
                have hv' : v' = v := by injection h
                subst hv'
                exact ⟨by omega, by omega, by simp [cell_checkbox_value, hfind, hv], hve⟩
              · rintro ⟨-, -, hval, -⟩
                simp only [cell_checkbox_value, hfind] at hval
                rw [hv] at hval
                have hv' : v' = v := by injection hval
                subst hv'
                rfl

/-! ## C7/C9/C10: the session orchestrator and the entry guard -/

/-- Every `login` branch performs exactly the POST and one notification. -/
lemma login_events (env : Env) : (login env).2 = [Event.loginAttempt, Event.notify] := by
  unfold login
  rcases env.loginResp with _ | ⟨status, cookie⟩
  · rfl
  · dsimp only
    split_ifs <;> rfl

/-- A per-group discovery-failure notification block never carries a
reservation event. -/
lemma not_reserve_mem_ite (t : String) (c : Prop) [Decidable c] :
    Event.reserveCall t ∉ (if c then ([] : List Event) else [Event.notify]) := by
  split <;> simp

/-- C7: a reservation POST occurs in a run's trace only when login succeeded
and all three weekday families are nonempty; login failure or any empty
family leaves the trace with zero reservation attempts. -/
theorem claim_C7 (env : Env) (year month : Nat) (t : String)
    (hmem : Event.reserveCall t ∈ (run_scraper env year month).2) :
    (login env).1 = true ∧
    sunday_values_of env year month ≠ [] ∧
    wednesday_values_of env year month ≠ [] ∧
    saturday_values_of env year month ≠ [] := by
  have hlev := login_events env
  unfold run_scraper at hmem
  dsimp only at hmem
  by_cases hl : (login env).1 = true
  · rw [hl] at hmem
    simp only [Bool.not_true, Bool.false_eq_true, if_false] at hmem
    by_cases hcond : (!(sunday_values_of env year month).isEmpty &&
        !(wednesday_values_of env year month).isEmpty &&
        !(saturday_values_of env year month).isEmpty) = true
    · refine ⟨hl, ?_, ?_, ?_⟩ <;>
        · simp only [Bool.and_eq_true, Bool.not_eq_true', List.isEmpty_eq_false] at hcond
          tauto
    · rw [if_neg hcond] at hmem
      exfalso
      simp [hlev, not_reserve_mem_ite] at hmem
  · exfalso
    rw [Bool.not_eq_true] at hl
    rw [hl] at hmem
    simp only [Bool.not_false, if_true] at hmem
    simp [hlev] at hmem

/-- C9: the entry point reaches `run_scraper` exactly on a Monday within the
first 7 days of the month; on any other date the whole observable behaviour
is a single notification. -/
theorem claim_C9 (env : Env) (y m d : Nat) :
    (¬ (pyWeekday y m d = 0 ∧ 1 ≤ d ∧ d ≤ 7) → main_entry env y m d = [Event.notify])
  ∧ ((pyWeekday y m d = 0 ∧ 1 ≤ d ∧ d ≤ 7) → main_entry env y m d = (run_scraper env y m).2) := by
  constructor
  · intro h
    unfold main_entry
    split
    · next hc =>
      exfalso
      apply h
      simp only [Bool.and_eq_true, beq_iff_eq, decide_eq_true_eq] at hc
      exact ⟨hc.1.1, hc.1.2, hc.2⟩
    · rfl
  · intro h
    unfold main_entry
    split
    · rfl
    · next hc =>
      exfalso
      apply hc
      simp only [Bool.and_eq_true, beq_iff_eq, decide_eq_true_eq]
      exact ⟨⟨h.1, h.2.1⟩, h.2.2⟩

/-- C10: a run returns `None` exactly on login failure; after a successful
login it always runs to completion and returns the results dictionary, whose
`monthly_reservations` entry is present exactly when all three families were
nonempty and the built month was nonempty. -/
theorem claim_C10 (env : Env) (year month : Nat) :
    ((run_scraper env year month).1 = none ↔ (login env).1 = false)
  ∧ ((login env).1 = true → ((run_scraper env year month).1).isSome = true)
  ∧ ((login env).1 = true →
      ((run_scraper env year month).1.bind Results.monthly_reservations ≠ none ↔
        (sunday_values_of env year month ≠ [] ∧
         wednesday_values_of env year month ≠ [] ∧
         saturday_values_of env year month ≠ [] ∧
         generate_monthly_reservations year month (sunday_values_of env year month)
           (wednesday_values_of env year month) (saturday_values_of env year month) ≠ []))) := by
  unfold run_scraper
  dsimp only
  by_cases hl : (login env).1 = true
  · rw [hl]
    simp only [Bool.not_true, Bool.false_eq_true, if_false]
    by_cases hcond : (!(sunday_values_of env year month).isEmpty &&
        !(wednesday_values_of env year month).isEmpty &&
        !(saturday_values_of env year month).isEmpty) = true
    · rw [if_pos hcond]
      have hfam : sunday_values_of env year month ≠ [] ∧
          wednesday_values_of env year month ≠ [] ∧
          saturday_values_of env year month ≠ [] := by
        simp only [Bool.and_eq_true, Bool.not_eq_true', List.isEmpty_eq_false] at hcond
        tauto
      by_cases hres : (!(generate_monthly_reservations year month
          (sunday_values_of env year month) (wednesday_values_of env year month)
          (saturday_values_of env year month)).isEmpty) = true
      · rw [if_pos hres]
        simp only [Bool.not_eq_true', List.isEmpty_eq_false] at hres
        simp [hl, hfam.1, hfam.2.1, hfam.2.2, hres]
      · rw [if_neg hres]
        simp only [Bool.not_eq_true', List.isEmpty_eq_false, not_not] at hres
        replace hres : generate_monthly_reservations year month
            (sunday_values_of env year month) (wednesday_values_of env year month)
            (saturday_values_of env year month) = [] := by
          simpa using hres
        simp [hl, hres]
    · rw [if_neg hcond]
      have hfam : ¬ (sunday_values_of env year month ≠ [] ∧
          wednesday_values_of env year month ≠ [] ∧
          saturday_values_of env year month ≠ []) := by
        intro hc
        apply hcond
        simp only [Bool.and_eq_true, Bool.not_eq_true', List.isEmpty_eq_false]
        tauto
      simp only [hl]
      refine ⟨by simp, fun _ => by simp, fun _ => ?_⟩
      simp only [Option.some_bind]
      constructor
      · intro hne
        exact absurd rfl hne
      · intro hc
        exact absurd ⟨hc.1, hc.2.1, hc.2.2.1⟩ hfam
  · rw [Bool.not_eq_true] at hl
    rw [hl]
    simp [hl]

/-! ## Demonstration environment for the witnesses -/

/-- A cell holding one checkbox input with the given value. -/
def demoCell (v : String) : HtmlCell := ⟨[⟨"checkbox", some v⟩]⟩

/-- A primary-class table whose 20 rows each hold 8 such cells. -/
def demoTable (v : String) : HtmlTable :=
  ⟨["stbl_l1a", "con_wid"], List.replicate 20 ⟨List.replicate 8 (demoCell v)⟩⟩

/-- A document with one such table. -/
def demoDoc (v : String) : HtmlDoc := [demoTable v]

/-- A fully successful external world: HTTP 200 everywhere, session cookie
set, one sample per weekday group, accepting reservation responses. -/
def envDemo : Env :=
  { loginResp := some (200, some "sid")
    ajaxResp := fun _ wk =>
      if wk = 0 then some (200, demoDoc "250100||4||20250803")
      else if wk = 3 then some (200, demoDoc "300500||6||20250806")
      else some (200, demoDoc "280000||5||20250802")
    reserveResp := fun _ => some (200, "장바구니에 담았습니다.") }

/-- Witness for C6: the exact-class stage selects the demo document's table. -/
theorem claim_C6_witness :
    findTable (demoDoc "250100||4||20250803") =
      ((demoDoc "250100||4||20250803").filter isSpecificTable).head? :=
  (claim_C6 (demoDoc "250100||4||20250803") 2 4 (by decide) (by decide)).2.1 (by decide)

/-- Witness for C7: in the successful August 2025 run, the first Saturday
token is submitted, and indeed login succeeded with all families nonempty. -/
theorem claim_C7_witness :
    (login envDemo).1 = true ∧
    sunday_values_of envDemo 2025 8 ≠ [] ∧
    wednesday_values_of envDemo 2025 8 ≠ [] ∧
    saturday_values_of envDemo 2025 8 ≠ [] :=
  claim_C7 envDemo 2025 8 "280000||5||20250802" (by decide)

/-- Witness for C9: 2026-10-12 is a Monday outside the first week, so the
entry point only notifies. -/
theorem claim_C9_witness :
    main_entry envDemo 2026 10 12 = [Event.notify] :=
  (claim_C9 envDemo 2026 10 12).1 (by decide)

/-- Witness for C10: with a successful login the run returns a dictionary. -/
theorem claim_C10_witness :
    ((run_scraper envDemo 2025 8).1).isSome = true :=
  (claim_C10 envDemo 2025 8).2.1 (by decide)
